import Mathlib

/-!
Verification of the asynchronous job-lifecycle core of the
GenZArtVideoGenResearch scripts.

Each script (minMax_hailuo.py, piapi_kling.py, runway_gen2.py) submits a
remote video-generation job, polls for its status, and downloads the result.
This file embeds their control flow shallowly: HTTP responses become
records of exactly the fields each script reads, the poll loops become
structurally recursive functions over the finite list of responses a run
observes, and every distinct exit path of a script becomes a constructor of
an outcome type.  The second component of each top-level function is the
content of the destination output file (none when no file was written).
-/

namespace GenZArtVideo

/-! ### minMax_hailuo.py -/

/-- The fields of a MiniMax status-query HTTP response that
query_video_generation reads: the HTTP status code, the JSON field
status (defaulted to the empty string when absent) and the JSON field
file_id (defaulted to the empty string when absent). -/
structure MinimaxQueryResponse where
  status_code : Nat
  status : String
  file_id : String
deriving DecidableEq, Repr

/-- Python truthiness of an optional string: None and the empty string are
falsy, every other string is truthy. -/
def pyTruthy : Option String → Bool
  | none => false
  | some s => s ≠ ""

/-- Python str.lower on the strings that occur here: lower-case each
character. -/
def pyLower (s : String) : String := ⟨s.data.map Char.toLower⟩

/-- query_video_generation (minMax_hailuo.py lines 54-74): a non-200
response yields (None, "Error"); a 200 response with status "Success"
yields (file_id, "Success") where file_id may be empty; any other 200
response yields (None, status). -/
def query_video_generation (r : MinimaxQueryResponse) : Option String × String :=
  if r.status_code ≠ 200 then (none, "Error")
  else if r.status = "Success" then (some r.file_id, "Success")
  else (none, r.status)

/-- The three branches of the body of the poll loop of minMax_hailuo.py
main (lines 208-239). -/
inductive MinimaxStep where
  | fetchAndBreak (file_id : String)
  | generationFailed (rawStatus : String)
  | sleepAndContinue (rawStatus : String)
deriving DecidableEq, Repr

/-- One iteration of the minMax poll loop: the branch taken on one query
response.  The source tests, in order: status == "Success" and file_id
(Python truthiness); status in ["Fail", "Error", "Unknown"]; else sleep. -/
def minimax_step (r : MinimaxQueryResponse) : MinimaxStep :=
  let q := query_video_generation r
  if q.2 = "Success" ∧ pyTruthy q.1 = true then .fetchAndBreak (q.1.getD "")
  else if q.2 = "Fail" ∨ q.2 = "Error" ∨ q.2 = "Unknown" then .generationFailed q.2
  else .sleepAndContinue q.2

/-- Result of running the minMax poll loop over a finite list of observed
query responses, together with the number of queries issued.  stillPolling
means the responses were exhausted with the loop still going (the real loop
would sleep and query again). -/
inductive MinimaxPollResult where
  | success (file_id : String) (polls : Nat)
  | failed (rawStatus : String) (polls : Nat)
  | stillPolling (polls : Nat)
deriving DecidableEq, Repr

/-- The minMax poll loop (while True at minMax_hailuo.py line 208), driven
by the list of query responses the run observes; the accumulator counts
poll_count. Every iteration issues exactly one status query. -/
def minimax_poll : List MinimaxQueryResponse → Nat → MinimaxPollResult
  | [], n => .stillPolling n
  | r :: rest, n =>
    match minimax_step r with
    | .fetchAndBreak fid => .success fid (n + 1)
    | .generationFailed s => .failed s (n + 1)
    | .sleepAndContinue _ => minimax_poll rest (n + 1)

/-- The environment of fetch_video_result (minMax_hailuo.py lines 76-112):
the HTTP code of the file-retrieve call, the download_url extracted from
its body (empty string when absent), and the result of the download GET —
none models an exception raised mid-transfer (requests.get buffers the
whole body, so an interrupted transfer raises before any file is opened),
some (code, bytes) a response with the given HTTP code and full body. -/
structure MinimaxFetchEnv where
  retrieve_status_code : Nat
  download_url : String
  download : Option (Nat × List Nat)
deriving DecidableEq, Repr

/-- Exit modes of fetch_video_result: ok (file written with the complete
content), failed (the function returns False), raised (an exception
propagates out of the function). -/
inductive FetchResult where
  | ok (content : List Nat)
  | failed
  | raised
deriving DecidableEq, Repr

/-- fetch_video_result: retrieve call non-200 → False; empty download_url →
False; download raises → exception; download non-200 → False; otherwise
the complete buffered body is written to the output path and True is
returned.  The file is opened only on the final branch, after the whole
body is already in memory. -/
def fetch_video_result (env : MinimaxFetchEnv) : FetchResult :=
  if env.retrieve_status_code ≠ 200 then .failed
  else if env.download_url = "" then .failed
  else
    match env.download with
    | none => .raised
    | some (code, content) => if code ≠ 200 then .failed else .ok content

/-- The submission-phase inputs of minMax_hailuo.py main: HTTP code of the
POST, whether its body parsed as JSON, and the task_id field (empty string
models both an absent field and an empty one — both are falsy). -/
structure MinimaxSubmitEnv where
  submit_status_code : Nat
  submit_json_ok : Bool
  task_id : String
deriving DecidableEq, Repr

/-- Every distinct exit path of minMax_hailuo.py main, in source order:
submit failed (non-200), submit body not JSON, no task_id, video fetched
and saved, fetch returned False (the loop breaks with no file saved),
exception raised during the download, the poll loop saw a terminal failure
status, or the observed responses ran out with the loop still polling. -/
inductive MinimaxOutcome where
  | submitHttpError (code : Nat)
  | submitJsonError
  | noTaskId
  | videoSaved (content : List Nat)
  | fetchFailed
  | exceptionDuringFetch
  | generationFailed (rawStatus : String)
  | stillPolling
deriving DecidableEq, Repr

/-- minMax_hailuo.py main: submit, then poll, then fetch on success.
Returns (outcome, content of the output file if one was written, number of
status queries issued). -/
def minimax_main (env : MinimaxSubmitEnv) (rs : List MinimaxQueryResponse)
    (fenv : MinimaxFetchEnv) : MinimaxOutcome × Option (List Nat) × Nat :=
  if env.submit_status_code ≠ 200 then (.submitHttpError env.submit_status_code, none, 0)
  else if env.submit_json_ok = false then (.submitJsonError, none, 0)
  else if env.task_id = "" then (.noTaskId, none, 0)
  else
    match minimax_poll rs 0 with
    | .success _fid n =>
      match fetch_video_result fenv with
      | .ok c => (.videoSaved c, some c, n)
      | .failed => (.fetchFailed, none, n)
      | .raised => (.exceptionDuringFetch, none, n)
    | .failed s n => (.generationFailed s, none, n)
    | .stillPolling n => (.stillPolling, none, n)

/-! ### piapi_kling.py -/

/-- The fields of a PiAPI status-check HTTP response that the poll loop of
piapi_kling.py main (lines 176-241) reads: the HTTP status code, the JSON
field code (none when absent), the field data.status (defaulted to the
empty string when absent), and the error message the failed branch
extracts, data.error.message defaulted to "No error message". -/
structure PiapiStatusResponse where
  status_code : Nat
  code : Option Nat
  status : String
  error_message : String
deriving DecidableEq, Repr

/-- The five branches of the body of the PiAPI poll loop. -/
inductive PiapiStep where
  | httpRetry
  | codeRetry
  | completed
  | taskFailed (errMsg : String)
  | keepPolling (taskStatus : String)
deriving DecidableEq, Repr

/-- One iteration of the PiAPI poll loop: non-200 HTTP → continue; JSON
code field not 200 → continue; otherwise lower-case data.status, break on
"completed" (the source also compares against "Completed", unreachable
after lower-casing but kept), return on "failed" with the error message,
else keep polling. -/
def piapi_step (r : PiapiStatusResponse) : PiapiStep :=
  if r.status_code ≠ 200 then .httpRetry
  else if r.code ≠ some 200 then .codeRetry
  else
    let task_status := pyLower r.status
    if task_status = "completed" ∨ task_status = "Completed" then .completed
    else if task_status = "failed" then .taskFailed r.error_message
    else .keepPolling task_status

/-- Result of running the PiAPI poll loop over a finite list of observed
status responses, with the count of status queries issued. -/
inductive PiapiPollResult where
  | completed (polls : Nat)
  | taskFailed (errMsg : String) (polls : Nat)
  | stillPolling (polls : Nat)
deriving DecidableEq, Repr

/-- The PiAPI poll loop (while True at piapi_kling.py line 176): each
iteration sleeps, then issues exactly one status query; httpRetry,
codeRetry and keepPolling all loop back. -/
def piapi_poll : List PiapiStatusResponse → Nat → PiapiPollResult
  | [], n => .stillPolling n
  | r :: rest, n =>
    match piapi_step r with
    | .completed => .completed (n + 1)
    | .taskFailed msg => .taskFailed msg (n + 1)
    | _ => piapi_poll rest (n + 1)

/-- Environment of the result-retrieval phase of piapi_kling.py main
(lines 243-271): the HTTP code of the final status GET, the
data.output.video_url field (empty string models both absent and empty,
both falsy), and the download GET — none models an exception (caught by
the enclosing try, which returns with no file written). -/
structure PiapiFinalEnv where
  final_status_code : Nat
  video_url : String
  download : Option (Nat × List Nat)
deriving DecidableEq, Repr

/-- Every distinct exit path of piapi_kling.py main after submission, in
source order. -/
inductive PiapiOutcome where
  | taskFailed (errMsg : String)
  | stillPolling
  | finalFetchHttpError (code : Nat)
  | noVideoUrl
  | exceptionCaught
  | downloadHttpError (code : Nat)
  | videoSaved (content : List Nat)
deriving DecidableEq, Repr

/-- piapi_kling.py main from the poll loop on: poll until completed or
failed, then re-GET the task, extract video_url, download, and write the
complete buffered body.  Returns (outcome, output-file content if written,
number of status queries issued by the loop). -/
def piapi_main (rs : List PiapiStatusResponse) (fin : PiapiFinalEnv) :
    PiapiOutcome × Option (List Nat) × Nat :=
  match piapi_poll rs 0 with
  | .stillPolling n => (.stillPolling, none, n)
  | .taskFailed msg n => (.taskFailed msg, none, n)
  | .completed n =>
    if fin.final_status_code ≠ 200 then (.finalFetchHttpError fin.final_status_code, none, n)
    else if fin.video_url = "" then (.noVideoUrl, none, n)
    else
      match fin.download with
      | none => (.exceptionCaught, none, n)
      | some (code, content) =>
        if code ≠ 200 then (.downloadHttpError code, none, n)
        else (.videoSaved content, some content, n)

/-! ### runway_gen2.py -/

/-- The fields of the single RunwayML API call that runway_gen2.py main
reads: the HTTP status code of the POST, whether the response body has a
video field, and the decoded bytes of that field. -/
structure RunwaySubmitEnv where
  submit_status_code : Nat
  has_video : Bool
  video_content : List Nat
deriving DecidableEq, Repr

/-- Exit paths of runway_gen2.py main: the script is synchronous — it
never polls a status endpoint. -/
inductive RunwayOutcome where
  | apiRequestFailed (code : Nat)
  | videoSaved (content : List Nat)
  | noVideoInResponse
deriving DecidableEq, Repr

/-- runway_gen2.py main (lines 75-96): non-200 → return with no file;
video field present → decode and write it; otherwise report no video.
Returns (outcome, output-file content if written). -/
def runway_main (env : RunwaySubmitEnv) : RunwayOutcome × Option (List Nat) :=
  if env.submit_status_code ≠ 200 then (.apiRequestFailed env.submit_status_code, none)
  else if env.has_video then (.videoSaved env.video_content, some env.video_content)
  else (.noVideoInResponse, none)

/-! ### Concrete fixtures used by the scenario theorems -/

/-- A 200 MiniMax query response with raw status "Processing". -/
def mmProcessing : MinimaxQueryResponse := ⟨200, "Processing", ""⟩

/-- A 200 MiniMax query response with raw status "Fail". -/
def mmFail : MinimaxQueryResponse := ⟨200, "Fail", ""⟩

/-- A 200 MiniMax query response with raw status "Success" carrying the
given file_id. -/
def mmSuccess (fid : String) : MinimaxQueryResponse := ⟨200, "Success", fid⟩

/-- A well-formed PiAPI status response with lower-cased status
"processing". -/
def ppProcessing : PiapiStatusResponse := ⟨200, some 200, "processing", ""⟩

/-- A PiAPI status response whose HTTP status is 500: the transient
query-failure case. -/
def ppHttpBad : PiapiStatusResponse := ⟨500, none, "", ""⟩

/-- A well-formed PiAPI status response with status "failed" and the given
error message. -/
def ppFailed (msg : String) : PiapiStatusResponse := ⟨200, some 200, "failed", msg⟩

/-- A well-formed PiAPI status response with status "completed". -/
def ppCompleted : PiapiStatusResponse := ⟨200, some 200, "completed", ""⟩

/-- A successful MiniMax submission environment. -/
def okSubmit : MinimaxSubmitEnv := ⟨200, true, "abc123"⟩

/-- An arbitrary MiniMax fetch environment (unused on runs that never
reach the fetch). -/
def fenvAny : MinimaxFetchEnv := ⟨200, "", none⟩

/-- Whether the PiAPI poll loop continues past a response: its step is
neither completed nor taskFailed. -/
def piapi_step_continues (r : PiapiStatusResponse) : Bool :=
  match piapi_step r with
  | .completed => false
  | .taskFailed _ => false
  | _ => true

/-! ### Helper lemmas about the poll loops -/

lemma minimax_poll_cons_continue {r : MinimaxQueryResponse} {s : String}
    (h : minimax_step r = .sleepAndContinue s)
    (rest : List MinimaxQueryResponse) (n : Nat) :
    minimax_poll (r :: rest) n = minimax_poll rest (n + 1) := by
  simp [minimax_poll, h]

lemma minimax_poll_replicate {r : MinimaxQueryResponse} {s : String}
    (h : minimax_step r = .sleepAndContinue s) (n acc : Nat) :
    minimax_poll (List.replicate n r) acc = .stillPolling (acc + n) := by
  induction n generalizing acc with
  | zero => simp [minimax_poll]
  | succ k ih =>
    rw [List.replicate_succ, minimax_poll_cons_continue h, ih]
    congr 1
    omega

lemma minimax_poll_replicate_append {r : MinimaxQueryResponse} {s : String}
    (h : minimax_step r = .sleepAndContinue s) (t : MinimaxQueryResponse)
    (n acc : Nat) :
    minimax_poll (List.replicate n r ++ [t]) acc = minimax_poll [t] (acc + n) := by
  induction n generalizing acc with
  | zero => simp
  | succ k ih =>
    rw [List.replicate_succ, List.cons_append, minimax_poll_cons_continue h, ih]
    congr 1
    omega

lemma piapi_poll_cons_continue {r : PiapiStatusResponse}
    (h : piapi_step_continues r = true)
    (rest : List PiapiStatusResponse) (n : Nat) :
    piapi_poll (r :: rest) n = piapi_poll rest (n + 1) := by
  unfold piapi_step_continues at h
  cases hs : piapi_step r <;> rw [hs] at h <;> simp at h <;> simp [piapi_poll, hs]

lemma piapi_poll_replicate {r : PiapiStatusResponse}
    (h : piapi_step_continues r = true) (n acc : Nat) :
    piapi_poll (List.replicate n r) acc = .stillPolling (acc + n) := by
  induction n generalizing acc with
  | zero => simp [piapi_poll]
  | succ k ih =>
    rw [List.replicate_succ, piapi_poll_cons_continue h, ih]
    congr 1
    omega

lemma piapi_poll_replicate_append {r : PiapiStatusResponse}
    (h : piapi_step_continues r = true) (t : PiapiStatusResponse)
    (n acc : Nat) :
    piapi_poll (List.replicate n r ++ [t]) acc = piapi_poll [t] (acc + n) := by
  induction n generalizing acc with
  | zero => simp
  | succ k ih =>
    rw [List.replicate_succ, List.cons_append, piapi_poll_cons_continue h, ih]
    congr 1
    omega

lemma mm_step_processing : minimax_step mmProcessing = .sleepAndContinue "Processing" := by
  decide

lemma mm_step_fail : minimax_step mmFail = .generationFailed "Fail" := by
  decide

lemma mm_step_success_empty :
    minimax_step ⟨200, "Success", ""⟩ = .sleepAndContinue "Success" := by
  decide

lemma pp_continues_processing : piapi_step_continues ppProcessing = true := by
  decide

lemma pp_continues_httpBad : piapi_step_continues ppHttpBad = true := by
  decide

lemma pp_step_failed (msg : String) : piapi_step (ppFailed msg) = .taskFailed msg := rfl

lemma pp_poll_single_failed (msg : String) (n : Nat) :
    piapi_poll [ppFailed msg] n = .taskFailed msg (n + 1) := by
  simp [piapi_poll, pp_step_failed]

lemma mm_poll_single_fail (n : Nat) :
    minimax_poll [mmFail] n = .failed "Fail" (n + 1) := by
  simp [minimax_poll, mm_step_fail]

/-- fetch_video_result returns ok only when every check passed: the
retrieve call returned 200, a download URL was present, and the download
returned 200 with exactly the content that is written. -/
lemma fetch_video_result_ok (fenv : MinimaxFetchEnv) (c : List Nat)
    (h : fetch_video_result fenv = .ok c) :
    fenv.retrieve_status_code = 200 ∧ fenv.download_url ≠ "" ∧
      fenv.download = some (200, c) := by
  unfold fetch_video_result at h
  split_ifs at h with h1 h2
  push_neg at h1
  refine ⟨h1, h2, ?_⟩
  rcases hd : fenv.download with _ | ⟨code, content⟩
  · rw [hd] at h
    cases h
  · rw [hd] at h
    simp only at h
    split_ifs at h with h3
    push_neg at h3
    injection h with hc
    rw [h3, hc]

/-! ### Claim theorems -/

/-- C1 counterexample: in the Scenario C configuration (maxWait 30s, poll
interval 10s, every poll returning Processing) the MiniMax orchestrator
does not stop after 3 ticks with a timeout outcome: a run observing 4
Processing responses issues 4 status queries — past the claimed maximum —
and is still polling, with no file written and no timeout outcome. -/
theorem scenarioC_timeout_counterexample :
    minimax_main okSubmit (List.replicate 4 mmProcessing) fenvAny =
      (.stillPolling, none, 4) := by
  decide

/-- C1 (amended): neither script implements a maximum-wait timeout.  With
every poll returning a non-terminal status, each loop issues one status
query per observed response and is still polling after any number n of
responses; no timeout outcome exists in either outcome type. -/
theorem no_timeout_poll_loops (n : Nat) :
    minimax_poll (List.replicate n mmProcessing) 0 = .stillPolling n ∧
      piapi_poll (List.replicate n ppProcessing) 0 = .stillPolling n := by
  constructor
  · simpa using minimax_poll_replicate mm_step_processing n 0
  · simpa using piapi_poll_replicate pp_continues_processing n 0

/-- C2 counterexample: five consecutive transient status-query failures
(HTTP 500) leave the PiAPI loop still polling after five queries — no
bounded per-tick retry count is ever exceeded and the job is never
escalated to a failed outcome. -/
theorem transient_query_failure_counterexample :
    piapi_poll (List.replicate 5 ppHttpBad) 0 = .stillPolling 5 := by
  decide

/-- C2 (amended): the two scripts handle transient status-query failures
in opposite, unbounded ways, neither matching a bounded per-tick retry
budget: MiniMax escalates any non-200 query response immediately (zero
retries) to its terminal failure branch with raw status Error, while
PiAPI treats non-200 query responses as retryable without bound — after
any number n of consecutive failures it is still polling and never reaches
a failed outcome. -/
theorem transient_query_failure_policy (r : MinimaxQueryResponse)
    (h : r.status_code ≠ 200) (n : Nat) :
    minimax_step r = .generationFailed "Error" ∧
      piapi_poll (List.replicate n ppHttpBad) 0 = .stillPolling n := by
  constructor
  · have hq : query_video_generation r = (none, "Error") := by
      unfold query_video_generation
      rw [if_pos h]
    unfold minimax_step
    rw [hq]
    decide
  · simpa using piapi_poll_replicate pp_continues_httpBad n 0

/-- C2 witness: instantiated at a 500 MiniMax query response and three
PiAPI failures. -/
theorem transient_query_failure_policy_witness :
    minimax_step ⟨500, "", ""⟩ = .generationFailed "Error" ∧
      piapi_poll (List.replicate 3 ppHttpBad) 0 = .stillPolling 3 :=
  transient_query_failure_policy ⟨500, "", ""⟩ (by decide) 3

/-- C3 counterexample: the MiniMax script does not treat every
unrecognized raw status as an immediate terminal failure: the
unrecognized status "Bogus" falls through to the sleep branch and the
loop keeps polling. -/
theorem unrecognized_status_counterexample :
    minimax_step ⟨200, "Bogus", ""⟩ = .sleepAndContinue "Bogus" ∧
      minimax_poll [⟨200, "Bogus", ""⟩] 0 = .stillPolling 1 := by
  decide

/-- C3 (amended): the MiniMax poll loop treats exactly the literal raw
statuses Fail, Error and Unknown as immediate terminal failure — the
specific string "Unknown" is terminal exactly as "Fail"/"Error" are, but
any other unrecognized raw status falls to the sleep branch; the PiAPI
loop treats every well-formed status other than completed/failed as
transient and polls on. -/
theorem status_vocabulary_policy (r : MinimaxQueryResponse)
    (p : PiapiStatusResponse) (rest : List PiapiStatusResponse) (n : Nat)
    (hr : r.status_code = 200)
    (h1 : p.status_code = 200) (h2 : p.code = some 200)
    (h3 : pyLower p.status ≠ "completed") (h4 : pyLower p.status ≠ "Completed")
    (h5 : pyLower p.status ≠ "failed") :
    (minimax_step r = .generationFailed r.status ↔
      (r.status = "Fail" ∨ r.status = "Error" ∨ r.status = "Unknown")) ∧
      piapi_step p = .keepPolling (pyLower p.status) ∧
      piapi_poll (p :: rest) n = piapi_poll rest (n + 1) := by
  have hstep : piapi_step p = .keepPolling (pyLower p.status) := by
    unfold piapi_step
    simp [h1, h2, h3, h4, h5]
  refine ⟨?_, hstep, ?_⟩
  · unfold minimax_step query_video_generation
    simp only [hr, ne_eq]
    by_cases hs : r.status = "Success"
    · by_cases hf : r.file_id = "" <;> simp [hs, hf, pyTruthy]
    · by_cases hc : r.status = "Fail" ∨ r.status = "Error" ∨ r.status = "Unknown" <;>
        simp [hs, hc, pyTruthy]
  · apply piapi_poll_cons_continue
    unfold piapi_step_continues
    rw [hstep]

/-- C3 witness: instantiated at the MiniMax status "Unknown" (terminal,
like Fail/Error) and the PiAPI status "Bogus" (continues). -/
theorem status_vocabulary_policy_witness :
    (minimax_step ⟨200, "Unknown", ""⟩ =
        .generationFailed (MinimaxQueryResponse.status ⟨200, "Unknown", ""⟩) ↔
      (MinimaxQueryResponse.status ⟨200, "Unknown", ""⟩ = "Fail" ∨
        MinimaxQueryResponse.status ⟨200, "Unknown", ""⟩ = "Error" ∨
        MinimaxQueryResponse.status ⟨200, "Unknown", ""⟩ = "Unknown")) ∧
      piapi_step ⟨200, some 200, "Bogus", ""⟩ =
        .keepPolling (pyLower (PiapiStatusResponse.status ⟨200, some 200, "Bogus", ""⟩)) ∧
      piapi_poll (⟨200, some 200, "Bogus", ""⟩ :: []) 0 = piapi_poll [] (0 + 1) :=
  status_vocabulary_policy ⟨200, "Unknown", ""⟩ ⟨200, some 200, "Bogus", ""⟩ [] 0
    (by decide) (by decide) (by decide) (by decide) (by decide) (by decide)

/-- C4 (confirmed): writing the artifact is all-or-nothing in both
scripts.  For every run, either no output file exists, or the output file
holds exactly the complete body of a 200 download response — every
failure (locator resolution, HTTP error, exception mid-transfer) exits
before the output file is opened, because both scripts buffer the whole
body before opening the destination. -/
theorem output_file_all_or_nothing (env : MinimaxSubmitEnv)
    (rs : List MinimaxQueryResponse) (fenv : MinimaxFetchEnv)
    (rs2 : List PiapiStatusResponse) (fin : PiapiFinalEnv) :
    ((minimax_main env rs fenv).2.1 = none ∨
      ∃ c, fenv.download = some (200, c) ∧ (minimax_main env rs fenv).2.1 = some c) ∧
    ((piapi_main rs2 fin).2.1 = none ∨
      ∃ c, fin.download = some (200, c) ∧ (piapi_main rs2 fin).2.1 = some c) := by
  constructor
  · unfold minimax_main
    split_ifs with h1 h2 h3
    · left; trivial
    · left; trivial
    · left; trivial
    · rcases hp : minimax_poll rs 0 with ⟨fid, n⟩ | ⟨s, n⟩ | n <;> simp only [hp]
      · rcases hf : fetch_video_result fenv with ⟨c⟩ | _ | _ <;> simp only [hf]
        · right
          exact ⟨c, (fetch_video_result_ok fenv c hf).2.2, rfl⟩
        · left; trivial
        · left; trivial
      · left; trivial
      · left; trivial
  · unfold piapi_main
    rcases hp : piapi_poll rs2 0 with n | ⟨msg, n⟩ | n <;> simp only [hp]
    · split_ifs with g1 g2
      · left; trivial
      · left; trivial
      · rcases hd : fin.download with _ | ⟨code, content⟩ <;> simp only [hd]
        · left; trivial
        · split_ifs with g3
          · left; trivial
          · push_neg at g3
            right
            refine ⟨content, ?_, rfl⟩
            rw [g3]
    · left; trivial
    · left; trivial

/-- C5 counterexample: a 200 MiniMax query response with raw status
Success but no file_id produces a job state whose canonical state is
Succeeded (raw status Success) while its result locator is empty — the
locator-iff-Succeeded invariant fails in the only-if direction. -/
theorem locator_invariant_counterexample :
    (query_video_generation ⟨200, "Success", ""⟩).2 = "Success" ∧
      pyTruthy (query_video_generation ⟨200, "Success", ""⟩).1 = false := by
  decide

/-- C5 (amended): only one direction of the locator invariant holds in
the MiniMax script: a non-empty (truthy) result locator arises only from
a 200 response with raw status Success and a non-empty file_id.  The
converse fails (see the counterexample): a Success status may come with
an empty locator, and the loop then just keeps polling; no TimedOut state
or structured error field exists in the code at all. -/
theorem locator_nonempty_only_if_success (r : MinimaxQueryResponse)
    (h : pyTruthy (query_video_generation r).1 = true) :
    (query_video_generation r).2 = "Success" ∧ r.status = "Success" ∧
      r.status_code = 200 ∧ r.file_id ≠ "" := by
  unfold query_video_generation at h ⊢
  split_ifs at h ⊢ with h1 h2
  · simp [pyTruthy] at h
  · push_neg at h1
    simp only [pyTruthy, decide_eq_true_eq] at h
    exact ⟨rfl, h2, h1, h⟩
  · simp [pyTruthy] at h

/-- C5 witness: instantiated at a Success response carrying file_id
"file-1". -/
theorem locator_nonempty_only_if_success_witness :
    (query_video_generation ⟨200, "Success", "file-1"⟩).2 = "Success" ∧
      MinimaxQueryResponse.status ⟨200, "Success", "file-1"⟩ = "Success" ∧
      MinimaxQueryResponse.status_code ⟨200, "Success", "file-1"⟩ = 200 ∧
      MinimaxQueryResponse.file_id ⟨200, "Success", "file-1"⟩ ≠ "" :=
  locator_nonempty_only_if_success ⟨200, "Success", "file-1"⟩ (by decide)

/-- C6 counterexample: with every poll returning Processing, a MiniMax
run issues 100 status queries and is still going — far past the claimed
ceil(maxWait / pollInterval) + retryBudget bound (3 + 0 in the Scenario C
configuration), because no maximum wait is implemented at all. -/
theorem poll_count_bound_counterexample :
    minimax_main okSubmit (List.replicate 100 mmProcessing) fenvAny =
      (.stillPolling, none, 100) := by
  have hp : minimax_poll (List.replicate 100 mmProcessing) 0 = .stillPolling 100 := by
    simpa using minimax_poll_replicate mm_step_processing 100 0
  unfold minimax_main
  rw [if_neg (by decide), if_neg (by decide), if_neg (by decide), hp]

/-- C6 (amended): each loop issues exactly one status query per tick, so
a status sequence reaching a terminal state at tick k = n + 1 issues
exactly k queries; but the total is not bounded by any function of
maxWait and a retry budget, since no maximum wait exists (see the
counterexample). -/
theorem poll_count_exact (n : Nat) (msg : String) :
    minimax_poll (List.replicate n mmProcessing ++ [mmFail]) 0 =
        .failed "Fail" (n + 1) ∧
      piapi_poll (List.replicate n ppProcessing ++ [ppFailed msg]) 0 =
        .taskFailed msg (n + 1) := by
  constructor
  · rw [minimax_poll_replicate_append mm_step_processing mmFail n 0]
    simpa using mm_poll_single_fail n
  · rw [piapi_poll_replicate_append pp_continues_processing (ppFailed msg) n 0]
    simpa using pp_poll_single_failed msg n

/-- C7 (confirmed): a failed submission (any non-200 HTTP status,
including 401) aborts the flow at once: the MiniMax script returns the
submit-error outcome with that status code, writes no file and issues
zero status queries; the RunwayML script likewise returns its
request-failed outcome with no file (it never polls at all). -/
theorem submit_failure_aborts_without_polling (env : MinimaxSubmitEnv)
    (rs : List MinimaxQueryResponse) (fenv : MinimaxFetchEnv)
    (renv : RunwaySubmitEnv)
    (h : env.submit_status_code ≠ 200) (h2 : renv.submit_status_code ≠ 200) :
    minimax_main env rs fenv = (.submitHttpError env.submit_status_code, none, 0) ∧
      runway_main renv = (.apiRequestFailed renv.submit_status_code, none) := by
  constructor
  · unfold minimax_main
    rw [if_pos h]
  · unfold runway_main
    rw [if_pos h2]

/-- C7 witness: instantiated at HTTP 401 submissions. -/
theorem submit_failure_aborts_without_polling_witness :
    minimax_main ⟨401, true, ""⟩ [] fenvAny =
        (.submitHttpError (MinimaxSubmitEnv.submit_status_code ⟨401, true, ""⟩), none, 0) ∧
      runway_main ⟨401, false, []⟩ =
        (.apiRequestFailed (RunwaySubmitEnv.submit_status_code ⟨401, false, []⟩), none) :=
  submit_failure_aborts_without_polling ⟨401, true, ""⟩ [] fenvAny ⟨401, false, []⟩
    (by decide) (by decide)

/-- C8 (confirmed): when generation has succeeded (the MiniMax poll loop
ended in success) and the result fetch then fails, the run ends in the
dedicated fetch-failure outcome with no file written, and that outcome is
a different constructor from every generation-failure outcome; likewise a
PiAPI run whose poll loop completed can never end in the task-failed
outcome, so a delivery failure is always distinguishable from a
generation failure. -/
theorem fetch_failure_distinct_from_generation_failure
    (env : MinimaxSubmitEnv) (rs : List MinimaxQueryResponse)
    (fenv : MinimaxFetchEnv) (fid : String) (n : Nat) (s : String)
    (rs2 : List PiapiStatusResponse) (fin : PiapiFinalEnv) (m : Nat) (msg : String)
    (he1 : env.submit_status_code = 200) (he2 : env.submit_json_ok = true)
    (he3 : env.task_id ≠ "")
    (hpoll : minimax_poll rs 0 = .success fid n)
    (hfetch : fetch_video_result fenv = .failed)
    (hpp : piapi_poll rs2 0 = .completed m) :
    (minimax_main env rs fenv).1 = .fetchFailed ∧
      (minimax_main env rs fenv).2.1 = none ∧
      MinimaxOutcome.fetchFailed ≠ MinimaxOutcome.generationFailed s ∧
      (piapi_main rs2 fin).1 ≠ PiapiOutcome.taskFailed msg := by
  have hm : minimax_main env rs fenv = (.fetchFailed, none, n) := by
    unfold minimax_main
    rw [if_neg (by simp [he1]), if_neg (by simp [he2]), if_neg he3, hpoll, hfetch]
  refine ⟨by rw [hm], by rw [hm], by simp, ?_⟩
  unfold piapi_main
  rw [hpp]
  simp only
  split_ifs with g1 g2
  · simp
  · simp
  · rcases hd : fin.download with _ | ⟨code, content⟩ <;> simp only [hd]
    · simp
    · split_ifs with g3 <;> simp

/-- C8 witness: a successful MiniMax poll followed by a failed retrieve
call, and a completed PiAPI poll. -/
theorem fetch_failure_distinct_witness :
    (minimax_main okSubmit [mmSuccess "f1"] ⟨500, "", none⟩).1 = .fetchFailed ∧
      (minimax_main okSubmit [mmSuccess "f1"] ⟨500, "", none⟩).2.1 = none ∧
      MinimaxOutcome.fetchFailed ≠ MinimaxOutcome.generationFailed "x" ∧
      (piapi_main [ppCompleted] ⟨200, "", none⟩).1 ≠ PiapiOutcome.taskFailed "y" :=
  fetch_failure_distinct_from_generation_failure okSubmit [mmSuccess "f1"]
    ⟨500, "", none⟩ "f1" 1 "x" [ppCompleted] ⟨200, "", none⟩ 1 "y"
    (by decide) (by decide) (by decide) (by decide) (by decide) (by decide)

/-- C9 (confirmed): a provider-reported failure status ends the run with
the terminal generation-failure outcome and no output file, after exactly
one query per tick.  MiniMax carries the vendor raw status (Fail); PiAPI
carries the vendor error message verbatim. -/
theorem provider_failure_terminal_no_file (n : Nat) (msg : String)
    (env : MinimaxSubmitEnv) (fenv : MinimaxFetchEnv) (fin : PiapiFinalEnv)
    (he1 : env.submit_status_code = 200) (he2 : env.submit_json_ok = true)
    (he3 : env.task_id ≠ "") :
    minimax_main env (List.replicate n mmProcessing ++ [mmFail]) fenv =
        (.generationFailed "Fail", none, n + 1) ∧
      piapi_main (List.replicate n ppProcessing ++ [ppFailed msg]) fin =
        (.taskFailed msg, none, n + 1) := by
  have hp : minimax_poll (List.replicate n mmProcessing ++ [mmFail]) 0 =
      .failed "Fail" (n + 1) := by
    rw [minimax_poll_replicate_append mm_step_processing mmFail n 0]
    simpa using mm_poll_single_fail n
  have hq : piapi_poll (List.replicate n ppProcessing ++ [ppFailed msg]) 0 =
      .taskFailed msg (n + 1) := by
    rw [piapi_poll_replicate_append pp_continues_processing (ppFailed msg) n 0]
    simpa using pp_poll_single_failed msg n
  constructor
  · unfold minimax_main
    rw [if_neg (by simp [he1]), if_neg (by simp [he2]), if_neg he3, hp]
  · unfold piapi_main
    rw [hq]

/-- C9 witness: Scenario B — the first poll reports the failure with
detail "content policy violation". -/
theorem provider_failure_terminal_no_file_witness :
    minimax_main okSubmit (List.replicate 0 mmProcessing ++ [mmFail]) fenvAny =
        (.generationFailed "Fail", none, 0 + 1) ∧
      piapi_main (List.replicate 0 ppProcessing ++
          [ppFailed "content policy violation"]) ⟨200, "", none⟩ =
        (.taskFailed "content policy violation", none, 0 + 1) :=
  provider_failure_terminal_no_file 0 "content policy violation" okSubmit fenvAny
    ⟨200, "", none⟩ (by decide) (by decide) (by decide)

/-- C10 (confirmed): a 200 MiniMax query response with raw status Success
but an empty file_id is neither terminal success nor terminal failure:
the loop body takes the sleep branch, and a run observing only such
responses keeps polling for any number n of ticks. -/
theorem success_without_file_id_keeps_polling (n : Nat) :
    minimax_step ⟨200, "Success", ""⟩ = .sleepAndContinue "Success" ∧
      minimax_poll (List.replicate n ⟨200, "Success", ""⟩) 0 = .stillPolling n := by
  refine ⟨mm_step_success_empty, ?_⟩
  simpa using minimax_poll_replicate mm_step_success_empty n 0

end GenZArtVideo
